import Mathlib

unseal Rat.add Rat.sub Rat.mul Rat.inv Rat.ofScientific

set_option maxRecDepth 8000

/-!
Verification of the Omokabet betting-ledger backend (`server.js`).

The four relational tables (`users`, `matches`, `bets`, `deposits`) are
embedded as lists of rows; each mutating HTTP handler becomes a function
`DB → args → DB × Res α` where the returned `DB` is the committed state
(on every error path the original state is returned, mirroring the
explicit `ROLLBACK` issued by the handlers).  `NUMERIC` columns are
embedded as the exact rational values of the stored decimals, but every
arithmetic step of the handlers goes through the binary64 model `fl64`:
the driver returns `NUMERIC` columns as strings, the code converts them
with `Number(...)` (one binary64 rounding), and JavaScript `+`/`-` on
the resulting doubles is exact-then-round (`fl64` of the exact result).
Request-body numbers (`stake`, `amount`) are the doubles the handler
receives from the JSON parser, on which `Number(...)` is the identity.
Row `status` columns are the literal strings the code uses.
-/

namespace Omokabet

/-- A row of the `users` table (server.js:44-52). -/
structure UserRow where
  id : Nat
  email : String
  password_hash : String
  full_name : Option String
  balance : ℚ
  is_admin : Bool
deriving DecidableEq, Repr

/-- A row of the `matches` table (server.js:56-62). -/
structure MatchRow where
  id : Nat
  home : String
  away : String
  odds : ℚ
deriving DecidableEq, Repr

/-- A row of the `bets` table (server.js:66-74); `status` is the literal
string stored by the code, `'open'` or `'settled'`. -/
structure BetRow where
  id : Nat
  user_id : Nat
  match_id : Nat
  stake : ℚ
  status : String
  payout : ℚ
deriving DecidableEq, Repr

/-- A row of the `deposits` table (server.js:78-86); `approved_at` records
whether the timestamp column has been set. -/
structure DepositRow where
  id : Nat
  user_id : Nat
  amount : ℚ
  status : String
  approved_by : Option Nat
  approved_at : Bool
deriving DecidableEq, Repr

/-- The persistent store: the four tables plus the `SERIAL` id counters. -/
structure DB where
  users : List UserRow
  matches_ : List MatchRow
  bets : List BetRow
  deposits : List DepositRow
  nextUserId : Nat
  nextMatchId : Nat
  nextBetId : Nat
  nextDepositId : Nat
deriving DecidableEq, Repr

/-- The error responses the handlers produce, one constructor per distinct
`res.status(...).json({error: ...})` site relevant to the ledger. -/
inductive Err where
  | missingEmailOrPassword
  | emailExists
  | missingMatchData
  | invalidAmount
  | missingDepositId
  | depositNotFound
  | alreadyApproved
  | invalidBetData
  | userNotFound
  | insufficientBalance
  | matchNotFound
  | missingParams
  | betNotFound
  | alreadySettled
  | forbidden
  | serverError
deriving DecidableEq, Repr

/-- Outcome of a handler: a success payload or an error response. -/
inductive Res (α : Type) where
  | ok (val : α)
  | err (e : Err)
deriving DecidableEq, Repr

/-- `SELECT ... FROM users WHERE id=$1` returning `rows[0]`. -/
def findUser? (db : DB) (uid : Nat) : Option UserRow :=
  db.users.find? fun u => u.id == uid

/-- `SELECT * FROM matches WHERE id=$1` returning `rows[0]`. -/
def findMatch? (db : DB) (mid : Nat) : Option MatchRow :=
  db.matches_.find? fun m => m.id == mid

/-- `SELECT * FROM bets WHERE id=$1` returning `rows[0]`. -/
def findBet? (db : DB) (bid : Nat) : Option BetRow :=
  db.bets.find? fun b => b.id == bid

/-- `SELECT * FROM deposits WHERE id=$1` returning `rows[0]`. -/
def findDeposit? (db : DB) (did : Nat) : Option DepositRow :=
  db.deposits.find? fun d => d.id == did

/-- `UPDATE users SET balance=$1 WHERE id=$2` (server.js:232, 266, 298). -/
def updateBalance (users : List UserRow) (uid : Nat) (b : ℚ) : List UserRow :=
  users.map fun u => if u.id == uid then { u with balance := b } else u

/-- The balance of user `uid` as stored, if the row exists. -/
def balanceOf (db : DB) (uid : Nat) : Option ℚ :=
  (findUser? db uid).map fun u => u.balance

/-- `adminMiddleware` (server.js:106-115): the caller's row must exist and
carry `is_admin`. -/
def isAdminUser (db : DB) (uid : Nat) : Bool :=
  match findUser? db uid with
  | some u => u.is_admin
  | none => false

/-- Process configuration: the optional `ADMIN_EMAIL` bootstrap variable
(server.js:15). -/
structure Config where
  adminEmail : Option String
deriving DecidableEq, Repr

/-- Floor of the base-2 logarithm of a natural number, with explicit fuel
so that it is structurally recursive.  Fuel 1100 covers every magnitude
an IEEE-754 binary64 value can take (exponents lie in `[-1074, 1023]`). -/
def log2fuel : Nat → Nat → Nat
  | 0, _ => 0
  | fuel + 1, n => if n ≤ 1 then 0 else log2fuel fuel (n / 2) + 1

/-- `⌊log₂ x⌋` for a positive rational `x` whose numerator and denominator
are below `2 ^ 1100` (the binary64 range and far beyond). -/
def qFloorLog2 (x : ℚ) : ℤ :=
  let d : ℤ := (log2fuel 1100 x.num.toNat : ℤ) - (log2fuel 1100 x.den : ℤ)
  if (2 : ℚ) ^ d ≤ x then d else d - 1

/-- Round a rational to the nearest integer, ties to even — the IEEE-754
default rounding. -/
def rnEven (x : ℚ) : ℤ :=
  let f := ⌊x⌋
  let r := x - (f : ℚ)
  if r < 1 / 2 then f else if 1 / 2 < r then f + 1 else if f % 2 = 0 then f else f + 1

/-- The IEEE-754 binary64 value nearest to the rational `x` (for `x` in
the normal range): the significand is rounded to 53 bits, nearest, ties
to even.  This models what a JavaScript `Number` holds after
`Number(row.balance)` / `Number(dep.amount)` convert the `NUMERIC`
decimal strings at server.js:230-231, 257-265 and 296-297. -/
def fl64 (x : ℚ) : ℚ :=
  if x = 0 then 0
  else if 0 < x then
    (rnEven (x * 2 ^ (52 - qFloorLog2 x)) : ℚ) * 2 ^ (qFloorLog2 x - 52)
  else
    -((rnEven (-x * 2 ^ (52 - qFloorLog2 (-x))) : ℚ) * 2 ^ (qFloorLog2 (-x) - 52))

/-- The balance arithmetic of the three ledger handlers as the code
actually performs it (e.g. `Number(current) + Number(dep.amount)` at
server.js:230-231): both operands become binary64 values, the sum is a
binary64 addition (exact sum, then one binary64 rounding), and the
rounded result is what is written back to the `NUMERIC` column. -/
def jsAdd (a b : ℚ) : ℚ := fl64 (fl64 a + fl64 b)

/-- POST /api/register (server.js:128-146).  `hash` stands for the bcrypt
digest of `password`; the `UNIQUE` constraint on `email` surfaces as error
code 23505, mapped to a 409 conflict; `is_admin` mirrors the
`ADMIN_EMAIL` case-insensitive bootstrap comparison (line 133). -/
def register (cfg : Config) (db : DB) (email password hash : String)
    (fullName : Option String) : DB × Res UserRow :=
  if email = "" ∨ password = "" then (db, .err .missingEmailOrPassword)
  else if db.users.any (fun u => u.email == email) then (db, .err .emailExists)
  else
    let isAdmin : Bool :=
      match cfg.adminEmail with
      | some a => a.toLower == email.toLower
      | none => false
    let u : UserRow :=
      { id := db.nextUserId, email := email, password_hash := hash
        full_name := fullName, balance := 0, is_admin := isAdmin }
    ({ db with users := db.users ++ [u], nextUserId := db.nextUserId + 1 }, .ok u)

/-- POST /api/matches (server.js:181-191): admin creates a match; `!odds`
rejects a zero odds value. -/
def create_match (db : DB) (home away : String) (odds : ℚ) : DB × Res MatchRow :=
  if home = "" ∨ away = "" ∨ odds = 0 then (db, .err .missingMatchData)
  else
    let m : MatchRow := { id := db.nextMatchId, home := home, away := away, odds := odds }
    ({ db with matches_ := db.matches_ ++ [m], nextMatchId := db.nextMatchId + 1 }, .ok m)

/-- POST /api/deposits/request (server.js:205-215): rejects a falsy or
non-positive amount, then inserts a pending deposit row. -/
def request_deposit (db : DB) (uid : Nat) (amount : ℚ) : DB × Res DepositRow :=
  if amount = 0 ∨ amount ≤ 0 then (db, .err .invalidAmount)
  else
    let d : DepositRow :=
      { id := db.nextDepositId, user_id := uid, amount := amount
        status := "pending", approved_by := none, approved_at := false }
    ({ db with deposits := db.deposits ++ [d], nextDepositId := db.nextDepositId + 1 },
      .ok d)

/-- POST /api/deposits/approve (server.js:218-243).  Faithful points:
a falsy `id` is rejected up front; an already-approved deposit aborts with
a conflict; the owner's balance is read as
`(rows[0] && rows[0].balance) ? Number(rows[0].balance) : 0` — the driver
returns the `NUMERIC` balance as a string, which is truthy even for "0",
so the zero branch fires exactly when the owner row is ABSENT (there is
no NotFound check) and otherwise `current` is the binary64 conversion
`fl64` of the stored decimal; when the owner is absent the `UPDATE users`
matches no row, while the deposit is still marked approved and the
transaction commits.  The credit `current + Number(dep.amount)` is a
binary64 addition: exact sum of the two doubles, then one rounding. -/
def approve_deposit (db : DB) (adminId depId : Nat) : DB × Res ℚ :=
  if depId = 0 then (db, .err .missingDepositId)
  else
    match findDeposit? db depId with
    | none => (db, .err .depositNotFound)
    | some dep =>
      if dep.status = "approved" then (db, .err .alreadyApproved)
      else
        let current : ℚ :=
          match findUser? db dep.user_id with
          | some u => fl64 u.balance
          | none => 0
        let newBal := fl64 (current + fl64 dep.amount)
        ({ db with
            users := updateBalance db.users dep.user_id newBal
            deposits := db.deposits.map fun d =>
              if d.id == depId then
                { d with
                    status := "approved"
                    approved_by := some adminId
                    approved_at := true }
              else d },
          .ok newBal)

/-- POST /api/bets/place (server.js:246-278).  `stake` is the double the
handler receives from the JSON body, so `Number(stake)` is the identity
on it; the caller's stored balance is read as
`Number(userRes.rows[0].balance || 0)` — the driver returns a string, so
the `|| 0` never fires for an existing row and `balance` is the binary64
conversion `fl64` of the stored decimal.  The comparison at line 258 and
the debit `balance - Number(stake)` at line 265 are therefore binary64
operations, and the bet row stores the raw `stake` parameter.  `fault`
models a store error thrown between the uncommitted balance `UPDATE` and
`COMMIT`; the catch clause issues `ROLLBACK`, so the original state is
returned and the uncommitted debit and bet insertion are both
discarded. -/
def place_bet (db : DB) (uid matchId : Nat) (stake : ℚ) (fault : Bool) :
    DB × Res (Nat × ℚ) :=
  if matchId = 0 ∨ stake = 0 ∨ stake ≤ 0 then (db, .err .invalidBetData)
  else
    match findUser? db uid with
    | none => (db, .err .userNotFound)
    | some u =>
      let balance : ℚ := fl64 u.balance
      if balance < stake then (db, .err .insufficientBalance)
      else
        match findMatch? db matchId with
        | none => (db, .err .matchNotFound)
        | some _ =>
          if fault then (db, .err .serverError)
          else
            let newBalance := fl64 (balance - stake)
            let bet : BetRow :=
              { id := db.nextBetId, user_id := uid, match_id := matchId
                stake := stake, status := "open", payout := 0 }
            ({ db with
                users := updateBalance db.users uid newBalance
                bets := db.bets ++ [bet]
                nextBetId := db.nextBetId + 1 },
              .ok (db.nextBetId, newBalance))

/-- POST /api/bets/payout (server.js:281-312).  Faithful points: the
guard `!betId || !amount` rejects a zero amount (but lets any nonzero
amount through, negative included); a settled bet aborts with a
conflict; reading `userRes.rows[0].balance` of an absent owner throws,
which the catch clause turns into `ROLLBACK` plus a 500 response.
`amount` is the double from the JSON body, `curBalance` is the binary64
conversion of the stored decimal, and the credit
`curBalance + Number(amount)` at line 297 is a binary64 addition; the
bet row stores the raw `amount` parameter as its payout. -/
def payout (db : DB) (adminId betId : Nat) (amount : ℚ) : DB × Res Unit :=
  if betId = 0 ∨ amount = 0 then (db, .err .missingParams)
  else
    match findBet? db betId with
    | none => (db, .err .betNotFound)
    | some bet =>
      if bet.status = "settled" then (db, .err .alreadySettled)
      else
        match findUser? db bet.user_id with
        | none => (db, .err .serverError)
        | some u =>
          let curBalance : ℚ := fl64 u.balance
          let newBalance := fl64 (curBalance + amount)
          ({ db with
              users := updateBalance db.users bet.user_id newBalance
              bets := db.bets.map fun b =>
                if b.id == betId then
                  { b with status := "settled", payout := amount }
                else b },
            .ok ())

/-- One mutating API call, with the caller identity resolved. -/
inductive Op where
  | register (email password hash : String) (fullName : Option String)
  | createMatch (adminId : Nat) (home away : String) (odds : ℚ)
  | requestDeposit (uid : Nat) (amount : ℚ)
  | approveDeposit (adminId depId : Nat)
  | placeBet (uid matchId : Nat) (stake : ℚ) (fault : Bool)
  | settleBet (adminId betId : Nat) (amount : ℚ)
deriving DecidableEq, Repr

/-- Whether an operation is the CreateMatch endpoint. -/
def Op.isCreateMatch : Op → Bool
  | .createMatch _ _ _ _ => true
  | _ => false

/-- Apply one operation to the store; admin-only endpoints first pass
`adminMiddleware`, and a failed call leaves the store unchanged
(rollback). -/
def applyOp (cfg : Config) (db : DB) : Op → DB
  | .register e p h f => (register cfg db e p h f).1
  | .createMatch a h aw o =>
      if isAdminUser db a then (create_match db h aw o).1 else db
  | .requestDeposit u amt => (request_deposit db u amt).1
  | .approveDeposit a d =>
      if isAdminUser db a then (approve_deposit db a d).1 else db
  | .placeBet u m s f => (place_bet db u m s f).1
  | .settleBet a b amt =>
      if isAdminUser db a then (payout db a b amt).1 else db

/-- Apply a sequence of operations left to right. -/
def applyOps (cfg : Config) (db : DB) (ops : List Op) : DB :=
  ops.foldl (applyOp cfg) db

/-- The store right after `initDb`: four empty tables. -/
def emptyDB : DB :=
  { users := [], matches_ := [], bets := [], deposits := []
    nextUserId := 1, nextMatchId := 1, nextBetId := 1, nextDepositId := 1 }

/-- The user object serialised in success responses: the column list
`id,email,full_name,balance,is_admin` shared by the register `RETURNING`
clause (server.js:135), the login response after
`delete user.password_hash` (line 159), and the `SELECT` of
GET /api/me (line 171).  The stored credential has no field here. -/
structure UserPublic where
  id : Nat
  email : String
  full_name : Option String
  balance : ℚ
  is_admin : Bool
deriving DecidableEq, Repr

/-- The user object of the POST /api/register success response, built by
`RETURNING id,email,full_name,balance,is_admin` (server.js:135). -/
def register_user_view (u : UserRow) : UserPublic :=
  { id := u.id, email := u.email, full_name := u.full_name
    balance := u.balance, is_admin := u.is_admin }

/-- The user object of the POST /api/login success response: the selected
row after `delete user.password_hash` (server.js:153-159). -/
def login_user_view (u : UserRow) : UserPublic :=
  { id := u.id, email := u.email, full_name := u.full_name
    balance := u.balance, is_admin := u.is_admin }

/-- The user object of the GET /api/me success response, from
`SELECT id,email,full_name,balance,is_admin` (server.js:171). -/
def me_user_view (u : UserRow) : UserPublic :=
  { id := u.id, email := u.email, full_name := u.full_name
    balance := u.balance, is_admin := u.is_admin }

/-- The payload signed into the identity token by `createToken`
(server.js:118-120): `{ id, email }`. -/
structure TokenPayload where
  id : Nat
  email : String
deriving DecidableEq, Repr

/-- `createToken` (server.js:118-120) as the payload it signs. -/
def createToken (u : UserRow) : TokenPayload :=
  { id := u.id, email := u.email }

/-- Process configuration with no `ADMIN_EMAIL` bootstrap. -/
def demoCfg : Config := { adminEmail := none }

/-- A store holding an admin (id 1) and a freshly registered user (id 2)
with balance 0. -/
def twoUserDB : DB :=
  { users := [ { id := 1, email := "admin@x", password_hash := "h1", full_name := none
                 balance := 0, is_admin := true }
             , { id := 2, email := "user@x", password_hash := "h2", full_name := none
                 balance := 0, is_admin := false } ]
    matches_ := [], bets := [], deposits := []
    nextUserId := 3, nextMatchId := 1, nextBetId := 1, nextDepositId := 1 }

/-- Admin 1 creates a match; user 2 deposits 10 (approved), stakes all 10
on a bet, and the bet is settled with the caller-supplied amount `-5`,
which passes the `!betId || !amount` validation of the payout handler. -/
def negOps : List Op :=
  [ .createMatch 1 "H" "A" 2
  , .requestDeposit 2 10
  , .approveDeposit 1 1
  , .placeBet 2 1 10 false
  , .settleBet 1 1 (-5) ]

/-- A store with an admin (id 7) and a pending deposit of 50 whose owning
user row (id 99) is absent from the users table. -/
def orphanDB : DB :=
  { users := [ { id := 7, email := "admin@x", password_hash := "h", full_name := none
                 balance := 0, is_admin := true } ]
    matches_ := [], bets := []
    deposits := [ { id := 1, user_id := 99, amount := 50, status := "pending"
                    approved_by := none, approved_at := false } ]
    nextUserId := 8, nextMatchId := 1, nextBetId := 1, nextDepositId := 2 }

/-- A store with one user (id 2, balance 5) and a pending deposit of 50
owned by that user. -/
def approveDB : DB :=
  { users := [ { id := 2, email := "u@x", password_hash := "h", full_name := none
                 balance := 5, is_admin := false } ]
    matches_ := [], bets := []
    deposits := [ { id := 1, user_id := 2, amount := 50, status := "pending"
                    approved_by := none, approved_at := false } ]
    nextUserId := 3, nextMatchId := 1, nextBetId := 1, nextDepositId := 2 }

/-- The pending deposit row of `approveDB`. -/
def dep0 : DepositRow :=
  { id := 1, user_id := 2, amount := 50, status := "pending"
    approved_by := none, approved_at := false }

/-- The user row of `approveDB`. -/
def u0 : UserRow :=
  { id := 2, email := "u@x", password_hash := "h", full_name := none
    balance := 5, is_admin := false }

/-- A store with one user (id 2, balance 10) and one match (id 1). -/
def placeDB : DB :=
  { users := [ { id := 2, email := "u@x", password_hash := "h", full_name := none
                 balance := 10, is_admin := false } ]
    matches_ := [ { id := 1, home := "H", away := "A", odds := 2 } ]
    bets := [], deposits := []
    nextUserId := 3, nextMatchId := 2, nextBetId := 1, nextDepositId := 1 }

/-- The user row of `placeDB`. -/
def pu0 : UserRow :=
  { id := 2, email := "u@x", password_hash := "h", full_name := none
    balance := 10, is_admin := false }

/-- The match row of `placeDB`. -/
def m0 : MatchRow := { id := 1, home := "H", away := "A", odds := 2 }

/-- A store with one user (id 2, balance 7) and one open bet (id 1)
owned by that user. -/
def payoutDB : DB :=
  { users := [ { id := 2, email := "u@x", password_hash := "h", full_name := none
                 balance := 7, is_admin := false } ]
    matches_ := [ { id := 1, home := "H", away := "A", odds := 2 } ]
    bets := [ { id := 1, user_id := 2, match_id := 1, stake := 3
                status := "open", payout := 0 } ]
    deposits := []
    nextUserId := 3, nextMatchId := 2, nextBetId := 2, nextDepositId := 1 }

/-- The open bet row of `payoutDB`. -/
def bet0 : BetRow :=
  { id := 1, user_id := 2, match_id := 1, stake := 3, status := "open", payout := 0 }

/-- The user row of `payoutDB`. -/
def pw0 : UserRow :=
  { id := 2, email := "u@x", password_hash := "h", full_name := none
    balance := 7, is_admin := false }

/-- A store with one user (id 2) whose stored balance is the decimal
0.1, and a pending deposit (id 1) of the decimal amount 0.2 owned by
that user: both operands round when converted to binary64. -/
def driftDepositDB : DB :=
  { users := [ { id := 2, email := "u@x", password_hash := "h", full_name := none
                 balance := 1 / 10, is_admin := false } ]
    matches_ := [], bets := []
    deposits := [ { id := 1, user_id := 2, amount := 2 / 10, status := "pending"
                    approved_by := none, approved_at := false } ]
    nextUserId := 3, nextMatchId := 1, nextBetId := 1, nextDepositId := 2 }

/-- A store with one user (id 2) whose stored balance is the decimal
0.29999999999999998 — strictly below 0.3, yet rounding to the same
binary64 value as 0.3 — and one match (id 1). -/
def nearMissDB : DB :=
  { users := [ { id := 2, email := "u@x", password_hash := "h", full_name := none
                 balance := 29999999999999998 / 100000000000000000, is_admin := false } ]
    matches_ := [ { id := 1, home := "H", away := "A", odds := 2 } ]
    bets := [], deposits := []
    nextUserId := 3, nextMatchId := 2, nextBetId := 1, nextDepositId := 1 }

/-- The binary64 double nearest the decimal 0.3 — the JS number a caller
supplying the stake `0.3` actually sends: `5404319552844595 / 2 ^ 54`. -/
def nearStake : ℚ := 5404319552844595 / 18014398509481984

/-- A store with one user (id 2) whose stored balance is the decimal
0.1 and one open bet (id 1) owned by that user. -/
def driftBetDB : DB :=
  { users := [ { id := 2, email := "u@x", password_hash := "h", full_name := none
                 balance := 1 / 10, is_admin := false } ]
    matches_ := [ { id := 1, home := "H", away := "A", odds := 2 } ]
    bets := [ { id := 1, user_id := 2, match_id := 1, stake := 3
                status := "open", payout := 0 } ]
    deposits := []
    nextUserId := 3, nextMatchId := 2, nextBetId := 2, nextDepositId := 1 }

/-- The binary64 double nearest the decimal 0.2 — the JS number a caller
supplying the payout amount `0.2` actually sends: `3602879701896397 / 2 ^ 54`. -/
def driftAmt : ℚ := 3602879701896397 / 18014398509481984

end Omokabet

namespace Omokabet

/-- `find?` after a conditional in-place map: updating exactly the rows the
predicate selects (without changing what the predicate sees) commutes with
`find?`.  This is the list counterpart of `UPDATE ... WHERE id=$n` followed
by `SELECT ... WHERE id=$n`. -/
theorem find?_map_if {α : Type} (q : α → Bool) (f : α → α)
    (hf : ∀ a, q (f a) = q a) :
    ∀ l : List α,
      (l.map fun a => if q a then f a else a).find? q = (l.find? q).map f
  | [] => rfl
  | x :: xs => by
    cases hx : q x with
    | true =>
      simp only [List.map_cons, if_pos hx, List.find?_cons_of_pos _ ((hf x).trans hx),
        List.find?_cons_of_pos _ hx, Option.map_some']
    | false =>
      rw [List.map_cons, if_neg (show ¬ q x = true by simp [hx])]
      rw [List.find?_cons_of_neg _ (show ¬ q x = true by simp [hx]),
        List.find?_cons_of_neg _ (show ¬ q x = true by simp [hx])]
      exact find?_map_if q f hf xs

/-- Reading a user row after `UPDATE users SET balance=$1 WHERE id=$2`. -/
theorem updateBalance_find? (users : List UserRow) (uid : Nat) (b : ℚ) :
    (updateBalance users uid b).find? (fun u => u.id == uid)
      = (users.find? fun u => u.id == uid).map fun u => { u with balance := b } := by
  unfold updateBalance
  exact find?_map_if (fun u => u.id == uid) (fun u => { u with balance := b })
    (fun _ => rfl) users

/-- Reading a deposit row after the approval `UPDATE` (server.js:233). -/
theorem approveUpdate_find? (deps : List DepositRow) (depId adminId : Nat) :
    (deps.map fun d =>
        if d.id == depId then
          { d with status := "approved", approved_by := some adminId, approved_at := true }
        else d).find? (fun d => d.id == depId)
      = (deps.find? fun d => d.id == depId).map fun d =>
          { d with status := "approved", approved_by := some adminId, approved_at := true } := by
  exact find?_map_if (fun d => d.id == depId)
    (fun d => { d with status := "approved", approved_by := some adminId, approved_at := true })
    (fun _ => rfl) deps

/-- Reading a bet row after the settlement `UPDATE` (server.js:301). -/
theorem settleUpdate_find? (bets : List BetRow) (betId : Nat) (amount : ℚ) :
    (bets.map fun b =>
        if b.id == betId then { b with status := "settled", payout := amount } else b).find?
      (fun b => b.id == betId)
      = (bets.find? fun b => b.id == betId).map fun b =>
          { b with status := "settled", payout := amount } := by
  exact find?_map_if (fun b => b.id == betId)
    (fun b => { b with status := "settled", payout := amount }) (fun _ => rfl) bets

/-- Characterisation of a successful deposit approval: with a pending
deposit and an existing owner, the handler commits the binary64-credited
user table and the approved deposit row and returns the new balance
`fl64 (fl64 balance + fl64 amount)`. -/
theorem approve_deposit_success_eq (db : DB) (adminId : Nat) (dep : DepositRow) (u : UserRow)
    (hid : dep.id ≠ 0)
    (hd : findDeposit? db dep.id = some dep)
    (hp : dep.status = "pending")
    (hu : findUser? db dep.user_id = some u) :
    approve_deposit db adminId dep.id
      = ({ db with
            users := updateBalance db.users dep.user_id
              (fl64 (fl64 u.balance + fl64 dep.amount))
            deposits := db.deposits.map fun d =>
              if d.id == dep.id then
                { d with
                    status := "approved"
                    approved_by := some adminId
                    approved_at := true }
              else d },
         .ok (fl64 (fl64 u.balance + fl64 dep.amount))) := by
  have hne : ¬ dep.status = "approved" := by rw [hp]; decide
  unfold approve_deposit
  rw [if_neg hid, hd]
  dsimp only
  rw [if_neg hne, hu]

/-- Approving a deposit whose stored status is already `'approved'`
aborts with the conflict error and leaves the store untouched
(server.js:227). -/
theorem approve_conflict (db1 : DB) (depId a2 : Nat) (dep1 : DepositRow)
    (hid : depId ≠ 0)
    (hd1 : findDeposit? db1 depId = some dep1)
    (hs : dep1.status = "approved") :
    approve_deposit db1 a2 depId = (db1, .err .alreadyApproved) := by
  unfold approve_deposit
  rw [if_neg hid, hd1]
  dsimp only
  rw [if_pos hs]

/-- A zero payout amount is falsy, so `!betId || !amount` rejects the
request before the transaction begins (server.js:283). -/
theorem payout_zero_amount (db : DB) (adminId betId : Nat) :
    payout db adminId betId 0 = (db, .err .missingParams) := by
  unfold payout
  rw [if_pos (Or.inr rfl)]

/-- Characterisation of a successful settlement: with an open bet, an
existing owner and a nonzero amount, the handler commits the
binary64-credited user table (`fl64 (fl64 balance + amount)`) and the
settled bet row. -/
theorem payout_eq (db : DB) (adminId : Nat) (bet : BetRow) (u : UserRow) (amount : ℚ)
    (hbid : bet.id ≠ 0) (hamt : amount ≠ 0)
    (hb : findBet? db bet.id = some bet)
    (hopen : bet.status = "open")
    (hu : findUser? db bet.user_id = some u) :
    payout db adminId bet.id amount
      = ({ db with
            users := updateBalance db.users bet.user_id (fl64 (fl64 u.balance + amount))
            bets := db.bets.map fun b =>
              if b.id == bet.id then { b with status := "settled", payout := amount }
              else b },
         .ok ()) := by
  have hne : ¬ bet.status = "settled" := by rw [hopen]; decide
  unfold payout
  rw [if_neg (not_or.mpr ⟨hbid, hamt⟩), hb]
  dsimp only
  rw [if_neg hne, hu]

/-- Settling a bet whose stored status is already `'settled'` aborts with
the conflict error and leaves the store untouched (server.js:292). -/
theorem payout_conflict (db1 : DB) (betId a2 : Nat) (amt2 : ℚ) (bet1 : BetRow)
    (hbid : betId ≠ 0) (hamt : amt2 ≠ 0)
    (hb1 : findBet? db1 betId = some bet1)
    (hs : bet1.status = "settled") :
    payout db1 a2 betId amt2 = (db1, .err .alreadySettled) := by
  unfold payout
  rw [if_neg (not_or.mpr ⟨hbid, hamt⟩), hb1]
  dsimp only
  rw [if_pos hs]

/-- The register handler never writes the matches table. -/
theorem register_frame (cfg : Config) (db : DB) (e p hh : String) (f : Option String) :
    ((register cfg db e p hh f).1).matches_ = db.matches_ := by
  unfold register
  repeat' split
  all_goals rfl

/-- The deposit-request handler never writes the matches table. -/
theorem request_deposit_frame (db : DB) (uid : Nat) (amount : ℚ) :
    ((request_deposit db uid amount).1).matches_ = db.matches_ := by
  unfold request_deposit
  repeat' split
  all_goals rfl

/-- The deposit-approval handler never writes the matches table. -/
theorem approve_deposit_frame (db : DB) (a d : Nat) :
    ((approve_deposit db a d).1).matches_ = db.matches_ := by
  unfold approve_deposit
  repeat' split
  all_goals rfl

/-- The bet-placement handler never writes the matches table. -/
theorem place_bet_frame (db : DB) (u m : Nat) (s : ℚ) (f : Bool) :
    ((place_bet db u m s f).1).matches_ = db.matches_ := by
  unfold place_bet
  repeat' split
  all_goals dsimp only
  all_goals repeat' split
  all_goals rfl

/-- The payout handler never writes the matches table. -/
theorem payout_frame (db : DB) (a b : Nat) (amt : ℚ) :
    ((payout db a b amt).1).matches_ = db.matches_ := by
  unfold payout
  repeat' split
  all_goals rfl

/-- C1: the spec claims `User.balance ≥ 0` after every operation, for any
settle amount that passes input validation.  The code refutes this: from
two fresh users (an admin and a user with balance 0), the sequence
create match → request deposit 10 → approve → stake 10 on a bet → settle
the bet with caller-supplied amount `-5` (which passes the
`!betId || !amount` check at server.js:283) commits a balance of `-5`. -/
theorem c1_negative_balance_reachable :
    balanceOf (applyOps demoCfg twoUserDB negOps) 2 = some (-5) ∧ ((-5 : ℚ) < 0) := by
  decide

/-- C2: the spec claims approving a pending deposit with an absent owner
fails `NotFound` with no side effects.  The code instead defaults the
missing owner's balance to 0 (server.js:230), issues a no-op `UPDATE`,
marks the deposit approved and commits, reporting success with
`newBalance = amount`: at `orphanDB` (deposit 1 of amount 50 owned by the
absent user 99) the call returns `ok 50`, the deposit becomes approved,
and the users table is untouched. -/
theorem c2_orphan_deposit_silently_approved :
    (approve_deposit orphanDB 7 1).2 = .ok 50 ∧
    findUser? orphanDB 99 = none ∧
    (findDeposit? (approve_deposit orphanDB 7 1).1 1).map (fun d => d.status)
      = some "approved" ∧
    ((approve_deposit orphanDB 7 1).1).users = orphanDB.users := by
  decide

/-- C3 counterexample: the claim as stated says a successful approval
sets the owner's balance to exactly `b + a`, but at `driftDepositDB`
(stored balance 0.1, pending deposit amount 0.2) the approval succeeds
and stores `jsAdd (1/10) (2/10)`, the binary64 sum, which is strictly
greater than the exact sum 0.3. -/
theorem c3_exact_sum_counterexample :
    (approve_deposit driftDepositDB 1 1).2 = .ok (jsAdd (1 / 10) (2 / 10)) ∧
    balanceOf (approve_deposit driftDepositDB 1 1).1 2 = some (jsAdd (1 / 10) (2 / 10)) ∧
    1 / 10 + 2 / 10 < jsAdd (1 / 10) (2 / 10) := by
  decide

/-- C3 (amended to the binary64 credit): the first approval of a pending
deposit with positive amount `a` and existing owner of stored balance
`b` succeeds, returns and stores the binary64 credit
`fl64 (fl64 b + fl64 a)` — equal to `b + a` whenever both operands are
binary64-representable, e.g. integers — records
`approved_by`/`approved_at` on the deposit, and every later approval of
the same id fails `AlreadyApproved` and changes nothing, so any number
of calls credits exactly once. -/
theorem c3_approve_deposit_credits_once_amended (db : DB) (adminId : Nat)
    (dep : DepositRow) (u : UserRow)
    (hid : dep.id ≠ 0)
    (hd : findDeposit? db dep.id = some dep)
    (hp : dep.status = "pending")
    (ha : 0 < dep.amount)
    (hu : findUser? db dep.user_id = some u) :
    (approve_deposit db adminId dep.id).2
      = .ok (fl64 (fl64 u.balance + fl64 dep.amount)) ∧
    balanceOf (approve_deposit db adminId dep.id).1 dep.user_id
      = some (fl64 (fl64 u.balance + fl64 dep.amount)) ∧
    findDeposit? (approve_deposit db adminId dep.id).1 dep.id
      = some { dep with status := "approved", approved_by := some adminId
                        approved_at := true } ∧
    (∀ a2 : Nat, approve_deposit (approve_deposit db adminId dep.id).1 a2 dep.id
        = ((approve_deposit db adminId dep.id).1, .err .alreadyApproved)) ∧
    ∀ n : Nat,
      (fun s => (approve_deposit s adminId dep.id).1)^[n]
          (approve_deposit db adminId dep.id).1
        = (approve_deposit db adminId dep.id).1 := by
  have heq := approve_deposit_success_eq db adminId dep u hid hd hp hu
  have h2 : balanceOf (approve_deposit db adminId dep.id).1 dep.user_id
      = some (fl64 (fl64 u.balance + fl64 dep.amount)) := by
    rw [heq]
    unfold balanceOf findUser?
    dsimp only
    rw [updateBalance_find?]
    unfold findUser? at hu
    rw [hu]
    rfl
  have h3 : findDeposit? (approve_deposit db adminId dep.id).1 dep.id
      = some { dep with status := "approved", approved_by := some adminId
                        approved_at := true } := by
    rw [heq]
    unfold findDeposit?
    dsimp only
    rw [approveUpdate_find?]
    unfold findDeposit? at hd
    rw [hd]
    rfl
  have h4 : ∀ a2 : Nat, approve_deposit (approve_deposit db adminId dep.id).1 a2 dep.id
      = ((approve_deposit db adminId dep.id).1, .err .alreadyApproved) := by
    intro a2
    exact approve_conflict _ dep.id a2 _ hid h3 rfl
  refine ⟨by rw [heq], h2, h3, h4, fun n => Function.iterate_fixed ?_ n⟩
  rw [h4 adminId]

/-- C3 witness: at `approveDB` (owner balance 5, pending deposit 50),
approval returns the binary64 credit of 5 and 50, i.e. exactly 55. -/
theorem c3_approve_deposit_credits_once_amended_witness :
    0 < dep0.amount ∧
    (approve_deposit approveDB 9 dep0.id).2
      = .ok (fl64 (fl64 u0.balance + fl64 dep0.amount)) :=
  ⟨by decide,
   (c3_approve_deposit_credits_once_amended approveDB 9 dep0 u0 (by decide) (by decide)
     rfl (by decide) (by decide)).1⟩

/-- C4 counterexample: the claim as stated says the call succeeds only
if the exact stored balance is at least the stake, but at `nearMissDB`
the stored balance 0.29999999999999998 is strictly below the stake
double `nearStake` (the JS number for 0.3), yet both convert to the same
binary64 value, so the comparison at server.js:258 passes and the bet is
placed — the debit even stores balance 0. -/
theorem c4_exact_comparison_counterexample :
    (29999999999999998 / 100000000000000000 : ℚ) < nearStake ∧
    balanceOf nearMissDB 2 = some (29999999999999998 / 100000000000000000) ∧
    (place_bet nearMissDB 2 1 nearStake false).2 = .ok (1, 0) ∧
    balanceOf (place_bet nearMissDB 2 1 nearStake false).1 2 = some 0 := by
  decide

/-- C4 (amended to the binary64 comparison and debit): for a PlaceBet
call with stake `s > 0` (the double received from the JSON body) by an
existing user with stored balance `b` on an existing match: the call
succeeds if and only if `fl64 b ≥ s`, i.e. the binary64 conversion of
the balance is at least the stake double; on success the stored balance
becomes the binary64 difference `fl64 (fl64 b - s)` and exactly one Bet
row `{stake s, status open, payout 0}` referencing the match is created;
if `fl64 b < s` it fails `InsufficientBalance` and no state changes (the
original store is returned). -/
theorem c4_place_bet_debit_iff_funds_amended (db : DB) (uid matchId : Nat) (stake : ℚ)
    (u : UserRow) (m : MatchRow)
    (hmid : matchId ≠ 0) (hs : 0 < stake)
    (hu : findUser? db uid = some u) (hm : findMatch? db matchId = some m) :
    (fl64 u.balance < stake →
      place_bet db uid matchId stake false = (db, .err .insufficientBalance)) ∧
    (stake ≤ fl64 u.balance →
      place_bet db uid matchId stake false
        = ({ db with
              users := updateBalance db.users uid (fl64 (fl64 u.balance - stake))
              bets := db.bets ++ [{ id := db.nextBetId, user_id := uid, match_id := matchId
                                    stake := stake, status := "open", payout := 0 }]
              nextBetId := db.nextBetId + 1 },
           .ok (db.nextBetId, fl64 (fl64 u.balance - stake))) ∧
      balanceOf (place_bet db uid matchId stake false).1 uid
        = some (fl64 (fl64 u.balance - stake)) ∧
      ((place_bet db uid matchId stake false).1).bets
        = db.bets ++ [{ id := db.nextBetId, user_id := uid, match_id := matchId
                        stake := stake, status := "open", payout := 0 }]) := by
  have hval : ¬ (matchId = 0 ∨ stake = 0 ∨ stake ≤ 0) :=
    not_or.mpr ⟨hmid, not_or.mpr ⟨hs.ne', not_le.mpr hs⟩⟩
  constructor
  · intro hlt
    unfold place_bet
    rw [if_neg hval, hu]
    dsimp only
    rw [if_pos hlt]
  · intro hle
    have hnlt : ¬ (fl64 u.balance < stake) := not_lt.mpr hle
    have hsucc : place_bet db uid matchId stake false
        = ({ db with
              users := updateBalance db.users uid (fl64 (fl64 u.balance - stake))
              bets := db.bets ++ [{ id := db.nextBetId, user_id := uid, match_id := matchId
                                    stake := stake, status := "open", payout := 0 }]
              nextBetId := db.nextBetId + 1 },
           .ok (db.nextBetId, fl64 (fl64 u.balance - stake))) := by
      unfold place_bet
      rw [if_neg hval, hu]
      dsimp only
      rw [if_neg hnlt, hm]
      dsimp only
      rw [if_neg Bool.false_ne_true]
    refine ⟨hsucc, ?_, ?_⟩
    · rw [hsucc]
      unfold balanceOf findUser?
      dsimp only
      rw [updateBalance_find?]
      unfold findUser? at hu
      rw [hu]
      rfl
    · rw [hsucc]

/-- C4 witness: at `placeDB` (balance 10, match 1), staking 4 succeeds
and stores the binary64 difference of 10 and 4, i.e. exactly 6. -/
theorem c4_place_bet_debit_iff_funds_amended_witness :
    (4 : ℚ) ≤ fl64 pu0.balance ∧
    balanceOf (place_bet placeDB 2 1 4 false).1 2
      = some (fl64 (fl64 pu0.balance - 4)) :=
  ⟨by decide,
   ((c4_place_bet_debit_iff_funds_amended placeDB 2 1 4 pu0 m0 (by decide) (by decide)
       (by decide) (by decide)).2 (by decide)).2.1⟩

/-- C5: every failing outcome of the bet-placement handler — invalid
input, missing user, insufficient balance, missing match, or a store
fault thrown after the balance check and debit but before `COMMIT`
(`fault := true`) — returns the original store: the caller's balance is
untouched and no bet row exists, because `ROLLBACK` discards the
uncommitted debit and insertion together. -/
theorem c5_place_bet_error_rollback (db : DB) (uid matchId : Nat) (stake : ℚ)
    (fault : Bool) (e : Err)
    (h : (place_bet db uid matchId stake fault).2 = .err e) :
    (place_bet db uid matchId stake fault).1 = db ∧
    ((place_bet db uid matchId stake fault).1).bets = db.bets := by
  revert h
  unfold place_bet
  repeat' split
  all_goals intro h
  all_goals dsimp only at h ⊢
  all_goals try exact ⟨rfl, rfl⟩
  all_goals split at h
  all_goals first
    | exact ⟨rfl, rfl⟩
    | simp_all
  all_goals split <;> exact ⟨rfl, rfl⟩

/-- C5 witness: at `placeDB`, a fault injected after the balance check of
a valid stake of 4 yields the 500 error and the unchanged store. -/
theorem c5_place_bet_error_rollback_witness :
    (place_bet placeDB 2 1 4 true).2 = .err .serverError ∧
    (place_bet placeDB 2 1 4 true).1 = placeDB :=
  ⟨by decide, (c5_place_bet_error_rollback placeDB 2 1 4 true .serverError (by decide)).1⟩

/-- C6 counterexample: the claim as stated fails twice.  At `payoutDB` —
an open bet (id 1) whose owner exists — the first settlement call with
amount 0 does not succeed: the falsy-amount guard rejects it with the
validation error before any transaction.  And at `driftBetDB` (owner's
stored balance 0.1, open bet 1) settling with the nonzero double
`driftAmt` (the JS number for 0.2) succeeds but stores the binary64
credit, strictly greater than the exact sum `b + a`. -/
theorem c6_settle_bet_counterexample :
    findBet? payoutDB 1 = some bet0 ∧ bet0.status = "open" ∧
    findUser? payoutDB bet0.user_id = some pw0 ∧
    (payout payoutDB 1 1 0).2 = .err .missingParams ∧
    (payout driftBetDB 1 1 driftAmt).2 = .ok () ∧
    balanceOf (payout driftBetDB 1 1 driftAmt).1 2
      = some (fl64 (fl64 (1 / 10) + driftAmt)) ∧
    1 / 10 + driftAmt < fl64 (fl64 (1 / 10) + driftAmt) := by
  decide

/-- C6 (amended to nonzero amounts and the binary64 credit): for an open
bet with existing owner of stored balance `b`, the first settlement with
any nonzero amount `a` (the double received from the JSON body) succeeds,
stores the binary64 credit `fl64 (fl64 b + a)` — equal to `b + a`
whenever both operands are binary64-representable, e.g. integers — and
marks the bet settled with `payout = a`; every later settlement of the
same id with a nonzero amount fails `AlreadySettled` and changes nothing
(a zero amount is instead rejected by validation), so the owner is
credited exactly once. -/
theorem c6_settle_bet_credits_once_amended (db : DB) (adminId : Nat) (bet : BetRow)
    (u : UserRow) (amount : ℚ)
    (hbid : bet.id ≠ 0) (hamt : amount ≠ 0)
    (hb : findBet? db bet.id = some bet)
    (hopen : bet.status = "open")
    (hu : findUser? db bet.user_id = some u) :
    (payout db adminId bet.id amount).2 = .ok () ∧
    balanceOf (payout db adminId bet.id amount).1 bet.user_id
      = some (fl64 (fl64 u.balance + amount)) ∧
    findBet? (payout db adminId bet.id amount).1 bet.id
      = some { bet with status := "settled", payout := amount } ∧
    (∀ a2 : Nat, ∀ amt2 : ℚ, amt2 ≠ 0 →
      payout (payout db adminId bet.id amount).1 a2 bet.id amt2
        = ((payout db adminId bet.id amount).1, .err .alreadySettled)) ∧
    ∀ n : Nat, ∀ amt2 : ℚ,
      (fun s => (payout s adminId bet.id amt2).1)^[n] (payout db adminId bet.id amount).1
        = (payout db adminId bet.id amount).1 := by
  have heq := payout_eq db adminId bet u amount hbid hamt hb hopen hu
  have h2 : balanceOf (payout db adminId bet.id amount).1 bet.user_id
      = some (fl64 (fl64 u.balance + amount)) := by
    rw [heq]
    unfold balanceOf findUser?
    dsimp only
    rw [updateBalance_find?]
    unfold findUser? at hu
    rw [hu]
    rfl
  have h3 : findBet? (payout db adminId bet.id amount).1 bet.id
      = some { bet with status := "settled", payout := amount } := by
    rw [heq]
    unfold findBet?
    dsimp only
    rw [settleUpdate_find?]
    unfold findBet? at hb
    rw [hb]
    rfl
  have h4 : ∀ a2 : Nat, ∀ amt2 : ℚ, amt2 ≠ 0 →
      payout (payout db adminId bet.id amount).1 a2 bet.id amt2
        = ((payout db adminId bet.id amount).1, .err .alreadySettled) := by
    intro a2 amt2 hamt2
    exact payout_conflict _ bet.id a2 amt2 _ hbid hamt2 h3 rfl
  refine ⟨by rw [heq], h2, h3, h4, fun n amt2 => Function.iterate_fixed ?_ n⟩
  by_cases h0 : amt2 = 0
  · rw [h0, payout_zero_amount]
  · rw [h4 adminId amt2 h0]

/-- C6 witness: at `payoutDB` (open bet 1, owner balance 7), settling
with amount 4 succeeds. -/
theorem c6_settle_bet_credits_once_amended_witness :
    bet0.status = "open" ∧
    (payout payoutDB 9 bet0.id 4).2 = .ok () :=
  ⟨rfl,
   (c6_settle_bet_credits_once_amended payoutDB 9 bet0 pw0 4 (by decide) (by decide)
     (by decide) rfl (by decide)).1⟩

/-- C7: the spec claims balance arithmetic is exact decimal arithmetic
with no rounding drift, but the handlers convert the `NUMERIC` columns
with `Number(...)` and add IEEE-754 binary64 doubles (server.js:230-231,
296-297).  For the decimal operands 0.1 and 0.2 the stored sum is the
binary64 value `1351079888211149 / 2^52 = 0.30000000000000004...`,
strictly greater than the exact sum 0.3. -/
theorem c7_binary64_rounding_drift :
    jsAdd (1 / 10) (2 / 10) = 1351079888211149 / 4503599627370496 ∧
    (1 : ℚ) / 10 + 2 / 10 < jsAdd (1 / 10) (2 / 10) := by
  decide

/-- C8: every operation other than CreateMatch — register, deposit
request, deposit approval, bet placement, bet settlement, whether it
succeeds or fails — leaves the matches table exactly as it was: match
rows are immutable once created. -/
theorem c8_matches_immutable (cfg : Config) (db : DB) (op : Op)
    (h : op.isCreateMatch = false) :
    (applyOp cfg db op).matches_ = db.matches_ := by
  cases op with
  | register e p hh f => exact register_frame cfg db e p hh f
  | createMatch a hm aw o => simp [Op.isCreateMatch] at h
  | requestDeposit u amt => exact request_deposit_frame db u amt
  | approveDeposit a d =>
    dsimp only [applyOp]
    split
    · exact approve_deposit_frame db a d
    · rfl
  | placeBet u m s f => exact place_bet_frame db u m s f
  | settleBet a b amt =>
    dsimp only [applyOp]
    split
    · exact payout_frame db a b amt
    · rfl

/-- C8 witness: a settlement operation leaves the matches table of
`twoUserDB` unchanged. -/
theorem c8_matches_immutable_witness :
    Op.isCreateMatch (Op.settleBet 1 1 2) = false ∧
    (applyOp demoCfg twoUserDB (Op.settleBet 1 1 2)).matches_ = twoUserDB.matches_ :=
  ⟨rfl, c8_matches_immutable demoCfg twoUserDB (Op.settleBet 1 1 2) rfl⟩

/-- C9: the success responses of Register, Login and Profile are
invariant under any change of the stored `password_hash` — each response
is built from the column list `id,email,full_name,balance,is_admin`
(register `RETURNING`, the login row after `delete user.password_hash`,
the /api/me `SELECT`) and the token payload `{id, email}`, so none of
them can contain or depend on the hashed credential. -/
theorem c9_responses_independent_of_password_hash (u : UserRow) (hh : String) :
    register_user_view { u with password_hash := hh } = register_user_view u ∧
    login_user_view { u with password_hash := hh } = login_user_view u ∧
    me_user_view { u with password_hash := hh } = me_user_view u ∧
    createToken { u with password_hash := hh } = createToken u :=
  ⟨rfl, rfl, rfl, rfl⟩

/-- C10: a settlement request with amount 0 (the only falsy numeric
amount) is rejected by the `!betId || !amount` guard with the 400
validation error before the transaction is opened, and the store is
returned unchanged, for every store, caller and bet id. -/
theorem c10_zero_amount_rejected (db : DB) (adminId betId : Nat) :
    payout db adminId betId 0 = (db, .err .missingParams) :=
  payout_zero_amount db adminId betId

end Omokabet
